import Mathlib

/-!
Verification of the `kubernetes-initializer-python` repository's core logic
against its natural-language specification.

The development shallowly embeds the admission-controller pipeline:

* `src/labelizer/label_controller.py` — `LabelController.handle_update`,
  the admission gate + queue advancer loop;
* `src/labelizer/rejection.py` — the `Rejection` exception and the
  `V1Status` it records;
* `src/labelizer/resource_handler.py` — the default `handle_item` and the
  PATCH-based `patch_item` bindings;
* `src/ai2/kubernetes/initializer/resource_handler.py` — the watch-stream
  handler `async_list_items` (event filtering, timeout/error handling,
  connection release, restart) and the replace-based `update_item`;
* `src/ai2/kubernetes/initializer/async_resource_handler.py` — the older
  watch handler `async_process_items`.

Python objects are modelled as Lean structures; `None`-able attributes as
`Option`; raised exceptions as `Except` errors; the observable effects of a
run (handler invocations, API calls, connection close/release) as explicit
action traces.
-/

/-- One entry of `metadata.initializers.pending`: an object `{name: string}`
(kubernetes `V1Initializer`). -/
structure Initializer where
  name : String
deriving DecidableEq, Repr

/-- The `V1Status` value recorded in `metadata.initializers.result` by a
rejection (see `src/labelizer/rejection.py`). -/
structure V1Status where
  message : String
  reason : String
  code : Int
  details : Option String
  status : String
deriving DecidableEq, Repr

/-- The `metadata.initializers` object: a pending list (may be `None` in
Python, hence `Option`) and a result status. -/
structure Initializers where
  pending : Option (List Initializer)
  result : Option V1Status
deriving DecidableEq, Repr

/-- The `metadata` of a resource item: `name`, `namespace` (`nspace` here,
since `namespace` is a Lean keyword) and the optional `initializers`
object. -/
structure ObjMeta where
  name : String
  nspace : String
  initializers : Option Initializers
deriving DecidableEq, Repr

/-- A resource item. `spec` abstracts every attribute of the item other than
`metadata` (pod spec, labels, …): the core logic never inspects it, so a
single opaque string field suffices to express "the rest of the object is
unchanged". -/
structure Item where
  metadata : ObjMeta
  spec : String
deriving DecidableEq, Repr

/-- Exceptions observable in the embedded code paths. `rejectionExc` is the
`Rejection` exception of `src/labelizer/rejection.py`; `attributeError` and
`nameError` are Python's `AttributeError` and `UnboundLocalError`;
`readTimeoutError` is `urllib3.exceptions.ReadTimeoutError`. -/
inductive PyError where
  | attributeError
  | nameError
  | readTimeoutError
  | rejectionExc (status : V1Status)
deriving DecidableEq, Repr

/-- Embedding of `Rejection.__init__` (src/labelizer/rejection.py lines
7-21): builds the stored `V1Status`. Python's `if not reason` treats both
`None` and the empty string as absent, defaulting `reason` to `message`;
`status` is always the literal `'Failure'`. -/
def rejectionStatus (message : String) (reason : Option String) (code : Int)
    (details : Option String) : V1Status :=
  let r := match reason with
    | none => message
    | some s => if s = "" then message else s
  { message := message, reason := r, code := code, details := details,
    status := "Failure" }

/-- Embedding of the admission-gate condition of
`LabelController.handle_update` (src/labelizer/label_controller.py lines
38-40):
`initializers and initializers.pending and initializers.pending[0].name == self.initializer_name`.
In Python, `None` and the empty list are falsy, so the chain is false when
`initializers` is `None`, when `pending` is `None` or `[]`, and otherwise
compares the head entry's name. -/
def isEligible (item : Item) (initializerName : String) : Bool :=
  match item.metadata.initializers with
  | none => false
  | some inits =>
    match inits.pending with
    | none => false
    | some [] => false
    | some (first :: _) => first.name = initializerName

/-- The pending-initializers queue of an item as the spec views it: an
absent `initializers` object and an absent `pending` list are read as the
empty queue (spec §3, ResourceObject: "absent must be treated identically
to empty"). -/
def initializerQueue (item : Item) : List Initializer :=
  match item.metadata.initializers with
  | none => []
  | some inits =>
    match inits.pending with
    | none => []
    | some l => l

/-- C1: the admission gate accepts an object iff its pending-initializers
queue — with absent initializers / absent or empty pending read as the
empty queue — is non-empty and its first entry's name equals the configured
initializer name. -/
theorem isEligible_iff_queue_head_matches (item : Item) (n : String) :
    isEligible item n = true ↔
      ∃ first rest, initializerQueue item = first :: rest ∧ first.name = n := by
  unfold isEligible initializerQueue
  cases h : item.metadata.initializers with
  | none => simp
  | some inits =>
    cases hp : inits.pending with
    | none => simp [hp]
    | some l =>
      cases l with
      | nil => simp [hp]
      | cons first rest =>
        simp only [hp, decide_eq_true_eq]
        constructor
        · intro he
          exact ⟨first, rest, rfl, he⟩
        · rintro ⟨f, r, he, hn⟩
          cases he
          exact hn

/-- Whether an API write binding is a `patch_namespaced_*` call
(JSON-merge-patch semantics) or a `replace_namespaced_*` call
(full-replace semantics). -/
inductive ApiCallKind where
  | patch
  | replace
deriving DecidableEq, Repr

/-- In `src/labelizer/resource_handler.py`, every concrete handler binds a
`patch_namespaced_*` API function (`patch_namespaced_pod`,
`patch_namespaced_job`, `patch_namespaced_deployment`,
`patch_namespaced_daemon_set`), and `ResourceHandler.patch_item` issues the
update through that binding. -/
def labelizerUpdateKind : ApiCallKind := ApiCallKind.patch

/-- In `src/ai2/kubernetes/initializer/resource_handler.py`, every concrete
handler binds a `replace_namespaced_*` API function
(`replace_namespaced_pod`, `replace_namespaced_job`, …), and
`ResourceHandler.update_item` issues the update through that binding. -/
def ai2UpdateKind : ApiCallKind := ApiCallKind.replace

/-- A type-specific handler as `LabelController` sees it: `handle_item`
either returns an item or raises (a `Rejection`, or any other
exception). -/
def Handler : Type := Item → Except PyError Item

/-- Python assignment `it.metadata.initializers.pending = p`: raises
`AttributeError` when `initializers` is `None` (NoneType has no attribute
`pending`), otherwise updates the field. -/
def setPending (it : Item) (p : List Initializer) : Except PyError Item :=
  match it.metadata.initializers with
  | none => Except.error PyError.attributeError
  | some inits =>
    Except.ok
      { it with
        metadata :=
          { it.metadata with initializers := some { inits with pending := some p } } }

/-- Python assignment `it.metadata.initializers.result = s`: raises
`AttributeError` when `initializers` is `None`, otherwise updates the
field. -/
def setResult (it : Item) (s : V1Status) : Except PyError Item :=
  match it.metadata.initializers with
  | none => Except.error PyError.attributeError
  | some inits =>
    Except.ok
      { it with
        metadata :=
          { it.metadata with initializers := some { inits with result := some s } } }

/-- The body of `LabelController.handle_update`'s per-item processing
(src/labelizer/label_controller.py lines 43-52) for an eligible item whose
captured `initializers.pending` list is `pending`:

* `try: updated_item = self.handler.handle_item(item)`;
* `except Rejection as rejection:` — `updated_item = item`, then
  `updated_item.metadata.initializers.result = rejection.status` (only the
  `Rejection` exception is caught; every other exception propagates);
* then in both cases
  `updated_item.metadata.initializers.pending = initializers.pending[1:]`,
  where `initializers` is the alias to the ORIGINAL item's initializers
  captured at line 38, so the slice is of the original pending list. -/
def advanceItem (h : Handler) (item : Item) (pending : List Initializer) :
    Except PyError Item :=
  match h item with
  | Except.ok updatedItem => setPending updatedItem (pending.drop 1)
  | Except.error (PyError.rejectionExc status) =>
    match setResult item status with
    | Except.ok withResult => setPending withResult (pending.drop 1)
    | Except.error e => Except.error e
  | Except.error e => Except.error e

/-- An observable effect of one `handle_update` run: invoking the handler's
`handle_item` on an item, or issuing the update API call
`patch_namespaced_item(name=item.metadata.name, namespace=item.metadata.namespace, body=item)`
via `ResourceHandler.patch_item`. -/
inductive ControllerAction where
  | handlerCall (item : Item)
  | updateCall (name : String) (nspace : String) (body : Item) (kind : ApiCallKind)
deriving DecidableEq, Repr

/-- Embedding of the loop of `LabelController.handle_update`
(src/labelizer/label_controller.py lines 37-53) over the listed items,
returning the trace of handler invocations and update calls, or the first
uncaught exception. `kind` is the API-call kind of the wrapped handler's
update binding (`labelizerUpdateKind` for every handler defined in
src/labelizer/resource_handler.py). The gate condition is the truthiness
chain of lines 38-40. -/
def handleUpdate (n : String) (h : Handler) (kind : ApiCallKind) :
    List Item → Except PyError (List ControllerAction)
  | [] => Except.ok []
  | item :: rest =>
    match item.metadata.initializers with
    | none => handleUpdate n h kind rest
    | some inits =>
      match inits.pending with
      | none => handleUpdate n h kind rest
      | some [] => handleUpdate n h kind rest
      | some (first :: pendingRest) =>
        if first.name = n then
          match advanceItem h item (first :: pendingRest) with
          | Except.error e => Except.error e
          | Except.ok updated =>
            match handleUpdate n h kind rest with
            | Except.error e => Except.error e
            | Except.ok acts =>
              Except.ok
                (ControllerAction.handlerCall item ::
                  ControllerAction.updateCall updated.metadata.name
                    updated.metadata.nspace updated kind :: acts)
        else handleUpdate n h kind rest

/-- The pending list of an item, as an `Option`; `none` when `initializers`
is absent or `pending` is absent. -/
def pendingOf (it : Item) : Option (List Initializer) :=
  match it.metadata.initializers with
  | none => none
  | some inits => inits.pending

/-- The result status of an item, `none` when `initializers` is absent or
`result` unset. -/
def resultOf (it : Item) : Option V1Status :=
  match it.metadata.initializers with
  | none => none
  | some inits => inits.result

/-- A handler invocation took one of the two outcomes the admission
protocol defines: it returned an accepted item that still carries an
`initializers` object (the documented `handle_item` contract: the caller
updates `initializers`, "so it should be returned unchanged"), or it
raised a `Rejection`. -/
def handlerOutcomeOk (h : Handler) (item : Item) : Prop :=
  (∃ u, h item = Except.ok u ∧ (u.metadata.initializers).isSome = true) ∨
  (∃ s, h item = Except.error (PyError.rejectionExc s))

/-- Attribute read on a resource item. The kubernetes model classes expose
the `metadata` attribute (the only item attribute this core reads); looking
up any other name raises `AttributeError`. -/
def Item.getattrMeta (it : Item) (attr : String) : Except PyError ObjMeta :=
  if attr = "metadata" then Except.ok it.metadata
  else Except.error PyError.attributeError

/-- Embedding of the default `ResourceHandler.handle_item`
(src/labelizer/resource_handler.py lines 64-66): it evaluates
`item.metadtata.name` (note the `metadtata` spelling in the source) to
format the message, then raises
`Rejection(message=..., reason='RejectAll')`. Python evaluates the
arguments before raising, so the attribute access happens first. -/
def defaultHandleItem (item : Item) : Except PyError Item :=
  match Item.getattrMeta item "metadtata" with
  | Except.error e => Except.error e
  | Except.ok md =>
    Except.error (PyError.rejectionExc
      (rejectionStatus ("Handler not implemented; rejecting " ++ md.name ++ ".")
        (some "RejectAll") 400 none))

/-- A handler that accepts every item unchanged. -/
def acceptHandler : Handler := fun it => Except.ok it

/-- A handler that rejects every item with `Rejection('bad image', code=403)`. -/
def rejectHandler403 : Handler :=
  fun _ => Except.error (PyError.rejectionExc (rejectionStatus "bad image" none 403 none))

/-- An item whose pending queue is `[A, B]`. -/
def itemAB : Item := ⟨⟨"x", "ns", some ⟨some [⟨"A"⟩, ⟨"B"⟩], none⟩⟩, "s"⟩

/-- An item whose pending queue is `[initA]`. -/
def itemInitA : Item := ⟨⟨"p", "ns", some ⟨some [⟨"initA"⟩], none⟩⟩, "payload"⟩

/-- An already-processed item: pending queue present but empty. -/
def itemEmptyQueue : Item := ⟨⟨"done", "ns", some ⟨some [], none⟩⟩, "s"⟩

/-- C2: for an eligible item (queue `first :: pendingRest` with
`first.name = n`) and either handler outcome, the single update sent has
pending queue exactly `pendingRest` — the head removed, every other entry
preserved in order and identity. -/
theorem handleUpdate_pops_exactly_head (n : String) (h : Handler)
    (kind : ApiCallKind) (item : Item) (inits : Initializers)
    (first : Initializer) (pendingRest : List Initializer)
    (hinits : item.metadata.initializers = some inits)
    (hpending : inits.pending = some (first :: pendingRest))
    (hname : first.name = n)
    (houtcome : handlerOutcomeOk h item) :
    ∃ u, handleUpdate n h kind [item] =
        Except.ok [ControllerAction.handlerCall item,
          ControllerAction.updateCall u.metadata.name u.metadata.nspace u kind] ∧
      pendingOf u = some pendingRest := by
  rcases houtcome with ⟨v, hv, hsome⟩ | ⟨s, hs⟩
  · rcases hi : v.metadata.initializers with _ | vinits
    · rw [hi] at hsome
      simp at hsome
    · refine ⟨⟨⟨v.metadata.name, v.metadata.nspace, some ⟨some pendingRest, vinits.result⟩⟩, v.spec⟩, ?_, ?_⟩
      · simp [handleUpdate, hinits, hpending, hname, advanceItem, hv, setPending, hi]
      · simp [pendingOf]
  · refine ⟨⟨⟨item.metadata.name, item.metadata.nspace, some ⟨some pendingRest, some s⟩⟩, item.spec⟩, ?_, ?_⟩
    · simp [handleUpdate, hinits, hpending, hname, advanceItem, hs, setResult, setPending, hinits]
    · simp [pendingOf]

/-- Witness for C2: initializer `A`, queue `[A, B]`, an accepting handler;
the update's queue is exactly `[B]`. -/
theorem handleUpdate_pops_exactly_head_witness :
    ∃ u, handleUpdate "A" acceptHandler ApiCallKind.patch [itemAB] =
        Except.ok [ControllerAction.handlerCall itemAB,
          ControllerAction.updateCall u.metadata.name u.metadata.nspace u ApiCallKind.patch] ∧
      pendingOf u = some [⟨"B"⟩] :=
  handleUpdate_pops_exactly_head "A" acceptHandler ApiCallKind.patch itemAB
    ⟨some [⟨"A"⟩, ⟨"B"⟩], none⟩ ⟨"A"⟩ [⟨"B"⟩] rfl rfl rfl
    (Or.inl ⟨itemAB, rfl, rfl⟩)

/-- C3: when the handler raises a `Rejection`, the update sent is the
original item — same `spec` payload, same name and namespace — with the
rejection's status recorded in `initializers.result` and the queue head
popped, and the update call is still issued. -/
theorem rejection_updates_original_item (n : String) (h : Handler)
    (kind : ApiCallKind) (item : Item) (inits : Initializers)
    (first : Initializer) (pendingRest : List Initializer) (s : V1Status)
    (hinits : item.metadata.initializers = some inits)
    (hpending : inits.pending = some (first :: pendingRest))
    (hname : first.name = n)
    (hrej : h item = Except.error (PyError.rejectionExc s)) :
    ∃ u, handleUpdate n h kind [item] =
        Except.ok [ControllerAction.handlerCall item,
          ControllerAction.updateCall u.metadata.name u.metadata.nspace u kind] ∧
      u.spec = item.spec ∧
      u.metadata.name = item.metadata.name ∧
      u.metadata.nspace = item.metadata.nspace ∧
      resultOf u = some s ∧
      pendingOf u = some pendingRest := by
  refine ⟨⟨⟨item.metadata.name, item.metadata.nspace, some ⟨some pendingRest, some s⟩⟩, item.spec⟩, ?_, rfl, rfl, rfl, ?_, ?_⟩
  · simp [handleUpdate, hinits, hpending, hname, advanceItem, hrej, setResult, setPending]
  · simp [resultOf]
  · simp [pendingOf]

/-- Witness for C3: a handler raising `Rejection('bad image', code=403)`
against an item with queue `[initA]`; the update is issued for the
original item with the status recorded and an empty queue. -/
theorem rejection_updates_original_item_witness :
    ∃ u, handleUpdate "initA" rejectHandler403 ApiCallKind.patch [itemInitA] =
        Except.ok [ControllerAction.handlerCall itemInitA,
          ControllerAction.updateCall u.metadata.name u.metadata.nspace u ApiCallKind.patch] ∧
      u.spec = itemInitA.spec ∧
      u.metadata.name = itemInitA.metadata.name ∧
      u.metadata.nspace = itemInitA.metadata.nspace ∧
      resultOf u = some (rejectionStatus "bad image" none 403 none) ∧
      pendingOf u = some [] :=
  rejection_updates_original_item "initA" rejectHandler403 ApiCallKind.patch
    itemInitA ⟨some [⟨"initA"⟩], none⟩ ⟨"initA"⟩ []
    (rejectionStatus "bad image" none 403 none) rfl rfl rfl rfl

/-- C9: an item that fails the admission gate is skipped entirely —
processing the list with it at the head equals processing the remainder,
so no handler call, no update call, and no state change occur for it. -/
theorem ineligible_item_skipped (n : String) (h : Handler) (kind : ApiCallKind)
    (item : Item) (rest : List Item)
    (hne : isEligible item n = false) :
    handleUpdate n h kind (item :: rest) = handleUpdate n h kind rest := by
  rcases hi : item.metadata.initializers with _ | inits
  · simp [handleUpdate, hi]
  · rcases hp : inits.pending with _ | l
    · simp [handleUpdate, hi, hp]
    · rcases l with _ | ⟨first, pendingRest⟩
      · simp [handleUpdate, hi, hp]
      · have hfn : ¬ first.name = n := by
          simp only [isEligible, hi, hp] at hne
          simpa using hne
        simp [handleUpdate, hi, hp, hfn]

/-- Witness for C9: an already-processed object (empty queue) produces the
same run as the empty list: no actions at all. -/
theorem ineligible_item_skipped_witness :
    handleUpdate "initA" defaultHandleItem ApiCallKind.patch [itemEmptyQueue] =
      handleUpdate "initA" defaultHandleItem ApiCallKind.patch [] :=
  ineligible_item_skipped "initA" defaultHandleItem ApiCallKind.patch
    itemEmptyQueue [] rfl

/-- C4 (code evaluated at the failing configuration): the labelizer wiring
that `LabelController` actually uses sends its update for a processed
object through a `patch_namespaced_*` binding — merge-patch semantics, not
the full-replace call the repository's own documentation
(src/ai2/kubernetes/initializer/resource_handler.py lines 37-38) requires.
Only the ai2 `ResourceHandler` binds `replace_namespaced_*`. -/
theorem labelizer_update_call_is_patch :
    handleUpdate "initA" acceptHandler labelizerUpdateKind [itemInitA] =
        Except.ok [ControllerAction.handlerCall itemInitA,
          ControllerAction.updateCall "p" "ns"
            ⟨⟨"p", "ns", some ⟨some [], none⟩⟩, "payload"⟩ ApiCallKind.patch] ∧
      labelizerUpdateKind ≠ ApiCallKind.replace ∧
      ai2UpdateKind = ApiCallKind.replace :=
  ⟨rfl, by decide, rfl⟩

/-- C10 (code evaluated at the failing input): the default `handle_item`
raises `AttributeError` on every item — the `metadtata` attribute access is
evaluated while building the rejection message — so it never raises the
documented `Rejection` with reason `RejectAll`. -/
theorem default_handle_item_raises_attribute_error :
    ∀ item : Item,
      defaultHandleItem item = Except.error PyError.attributeError ∧
        ∀ s, defaultHandleItem item ≠ Except.error (PyError.rejectionExc s) := by
  intro item
  have h1 : defaultHandleItem item = Except.error PyError.attributeError := rfl
  refine ⟨h1, fun s hc => ?_⟩
  rw [h1] at hc
  simp at hc

/-- One decoded watch event: `event['type']` (a string such as `'ADDED'`,
`'MODIFIED'`, `'DELETED'`, `'ERROR'`) and `event['object']`. -/
structure WatchEvent where
  type : String
  object : Item
deriving DecidableEq, Repr

/-- The keyword parameters of a watch-mode `list` call as issued by
`ResourceHandler.async_list_items`
(src/ai2/kubernetes/initializer/resource_handler.py lines 92-104):
`include_uninitialized=True, watch=True, _request_timeout=..., _preload_content=False`. -/
structure WatchParams where
  includeUninitialized : Bool
  watch : Bool
  requestTimeout : Nat
  preloadContent : Bool
deriving DecidableEq, Repr

/-- The parameters both the initial watch call and the restart call pass:
identical on the two call sites of `async_list_items`. -/
def watchParams (t : Nat) : WatchParams :=
  { includeUninitialized := true, watch := true, requestTimeout := t,
    preloadContent := false }

/-- An observable effect of `handle_response`: invoking `item_callback`,
invoking `error_callback`, closing the response, releasing its connection,
or issuing a (re)watch call. -/
inductive WatchAction where
  | itemCallback (item : Item)
  | errorCallback (e : PyError)
  | closeResponse
  | releaseConn
  | watchCall (params : WatchParams)
deriving DecidableEq, Repr

/-- One watch stream as `handle_response` consumes it: the decoded events
delivered, then how reading ends — `none` for a normal end of stream,
`some PyError.readTimeoutError` for an idle timeout raised while reading,
`some e` for any other exception raised by the read. -/
structure WatchStream where
  events : List WatchEvent
  ending : Option PyError
deriving DecidableEq, Repr

/-- Embedding of the event loop of `handle_response`
(src/ai2/kubernetes/initializer/resource_handler.py lines 72-80).
`itemVar` is the Python local `item`, assigned only inside the
ADDED/MODIFIED branch. In the `else` branch the source formats a debug
message from `item.metadata` — when `item` has not yet been assigned, that
read raises `UnboundLocalError` (modelled as `PyError.nameError`), which
escapes the loop; otherwise the event is merely logged and skipped.
Returns the callback actions performed and the exception, if any, that
ended the loop early. -/
def processEvents (itemVar : Option Item) :
    List WatchEvent → List WatchAction × Option PyError
  | [] => ([], none)
  | e :: rest =>
    if e.type == "MODIFIED" || e.type == "ADDED" then
      let r := processEvents (some e.object) rest
      (WatchAction.itemCallback e.object :: r.1, r.2)
    else
      match itemVar with
      | none => ([], some PyError.nameError)
      | some _ => processEvents itemVar rest

/-- Embedding of `handle_response`
(src/ai2/kubernetes/initializer/resource_handler.py lines 66-97) as the
trace of its observable actions:

* the loop over decoded events (see `processEvents`);
* `except ReadTimeoutError` — logged at debug level, NOT reported to
  `error_callback`;
* `except Exception as e` — `error_callback(e)`;
* `finally` — `response.close()` then `response.release_conn()`;
* then, after the `try` statement, one new watch call with the same
  parameters as the original call (lines 92-97).

`responseTail` is the exception-handling part: actions emitted after the
loop ends, before the `finally` block. -/
def responseTail (s : WatchStream) : List WatchAction :=
  match (processEvents none s.events).2 with
  | some err => [WatchAction.errorCallback err]
  | none =>
    match s.ending with
    | none => []
    | some PyError.readTimeoutError => []
    | some e => [WatchAction.errorCallback e]

/-- The full action trace of one `handle_response` run: the loop's
callbacks, the exception-handling actions, the `finally` block's
`close()` and `release_conn()`, then the unconditional re-watch call. -/
def handleResponse (t : Nat) (s : WatchStream) : List WatchAction :=
  (processEvents none s.events).1 ++ (responseTail s ++
    [WatchAction.closeResponse, WatchAction.releaseConn,
      WatchAction.watchCall (watchParams t)])

/-- Embedding of the event loop of `AsyncResourceHandler.async_process_items`
(src/ai2/kubernetes/initializer/async_resource_handler.py lines 51-61).
Here `item = event['object']` is assigned unconditionally before the
branch, so non-ADDED/MODIFIED events are skipped without error;
`handle_single_item` is the item callback. -/
def asyncProcessEvents : List WatchEvent → List WatchAction
  | [] => []
  | e :: rest =>
    if e.type == "MODIFIED" || e.type == "ADDED" then
      WatchAction.itemCallback e.object :: asyncProcessEvents rest
    else
      asyncProcessEvents rest

/-- Embedding of `handle_response` in
`AsyncResourceHandler.async_process_items` (lines 47-66): the loop runs
under `try`/`finally` with no `except`, so `response.close()` and
`response.release_conn()` run on every path and any exception propagates
afterwards (returned as the second component). -/
def asyncHandleResponse (s : WatchStream) : List WatchAction × Option PyError :=
  (asyncProcessEvents s.events ++
    [WatchAction.closeResponse, WatchAction.releaseConn], s.ending)

/-- Action classifiers for trace statements. -/
def isWatchCall : WatchAction → Bool
  | WatchAction.watchCall _ => true
  | _ => false

def isErrorCallback : WatchAction → Bool
  | WatchAction.errorCallback _ => true
  | _ => false

/-- Every action the event loop itself emits is an item callback. -/
theorem processEvents_mem_itemCallback (iv : Option Item)
    (evs : List WatchEvent) :
    ∀ a ∈ (processEvents iv evs).1, ∃ it, a = WatchAction.itemCallback it := by
  induction evs generalizing iv with
  | nil =>
    intro a ha
    simp [processEvents] at ha
  | cons e rest ih =>
    intro a ha
    by_cases hty : (e.type == "MODIFIED" || e.type == "ADDED") = true
    · simp only [processEvents, hty, if_true, List.mem_cons] at ha
      rcases ha with rfl | ha
      · exact ⟨e.object, rfl⟩
      · exact ih (some e.object) a ha
    · simp only [processEvents, hty, if_false, Bool.false_eq_true] at ha
      rcases hiv : iv with _ | it
      · rw [hiv] at ha
        simp at ha
      · rw [hiv] at ha
        exact ih (some it) a ha

/-- Every action the async-handler event loop emits is an item callback. -/
theorem asyncProcessEvents_mem_itemCallback (evs : List WatchEvent) :
    ∀ a ∈ asyncProcessEvents evs, ∃ it, a = WatchAction.itemCallback it := by
  induction evs with
  | nil =>
    intro a ha
    simp [asyncProcessEvents] at ha
  | cons e rest ih =>
    intro a ha
    by_cases hty : (e.type == "MODIFIED" || e.type == "ADDED") = true
    · simp only [asyncProcessEvents, hty, if_true, List.mem_cons] at ha
      rcases ha with rfl | ha
      · exact ⟨e.object, rfl⟩
      · exact ih a ha
    · simp only [asyncProcessEvents, hty, if_false, Bool.false_eq_true] at ha
      exact ih a ha

/-- Every action the exception-handling part emits is an error callback. -/
theorem responseTail_mem_errorCallback (s : WatchStream) :
    ∀ a ∈ responseTail s, ∃ e, a = WatchAction.errorCallback e := by
  intro a ha
  unfold responseTail at ha
  split at ha
  · simp at ha
    exact ⟨_, ha⟩
  · split at ha
    · simp at ha
    · simp at ha
    · simp at ha
      exact ⟨_, ha⟩

/-- A watch stream whose event loop raised no exception emits no
error-callback actions. -/
theorem processEvents_filter_errorCallback (evs : List WatchEvent) :
    ((processEvents none evs).1).filter isErrorCallback = [] :=
  List.filter_eq_nil_iff.mpr (by
    intro a ha
    obtain ⟨it, rfl⟩ := processEvents_mem_itemCallback none evs a ha
    simp [isErrorCallback])

/-- The event loop's actions contain no watch call. -/
theorem processEvents_filter_watchCall (evs : List WatchEvent) :
    ((processEvents none evs).1).filter isWatchCall = [] :=
  List.filter_eq_nil_iff.mpr (by
    intro a ha
    obtain ⟨it, rfl⟩ := processEvents_mem_itemCallback none evs a ha
    simp [isWatchCall])

/-- A stream whose first event is `DELETED`, followed by an `ADDED`
event. -/
def deletedFirstStream : WatchStream :=
  ⟨[⟨"DELETED", itemAB⟩, ⟨"ADDED", itemInitA⟩], none⟩

/-- A stream that ends in an idle timeout after one `ADDED` event. -/
def timeoutStream : WatchStream :=
  ⟨[⟨"ADDED", itemInitA⟩], some PyError.readTimeoutError⟩

/-- A stream that ends in a non-timeout exception with no events. -/
def fatalStream : WatchStream := ⟨[], some PyError.attributeError⟩

/-- C5 (code evaluated at the failing input): when the first decoded event
is `DELETED`, the debug log in the `else` branch reads the never-assigned
local `item`, raising `UnboundLocalError`; the exception is reported to
`error_callback` and the stream is abandoned, so the following `ADDED`
event's callback never happens — the event is not merely discarded and
processing does not continue. -/
theorem watch_deleted_first_event_errors :
    handleResponse 30 deletedFirstStream =
        [WatchAction.errorCallback PyError.nameError, WatchAction.closeResponse,
          WatchAction.releaseConn, WatchAction.watchCall (watchParams 30)] ∧
      WatchAction.itemCallback itemInitA ∉ handleResponse 30 deletedFirstStream := by
  constructor
  · rfl
  · decide

/-- C6: on an idle timeout the watcher reports nothing to the error
callback, closes and releases the session, and issues exactly one new
watch call whose parameters equal the original call's
(`include_uninitialized=True, watch=True, _request_timeout=t,
_preload_content=False`). -/
theorem idle_timeout_restarts_with_same_params (t : Nat) (s : WatchStream)
    (hloop : (processEvents none s.events).2 = none)
    (hend : s.ending = some PyError.readTimeoutError) :
    handleResponse t s = (processEvents none s.events).1 ++
        [WatchAction.closeResponse, WatchAction.releaseConn,
          WatchAction.watchCall (watchParams t)] ∧
      (handleResponse t s).filter isErrorCallback = [] ∧
      (handleResponse t s).filter isWatchCall =
        [WatchAction.watchCall (watchParams t)] := by
  have htail : responseTail s = [] := by
    unfold responseTail
    rw [hloop, hend]
  have htr : handleResponse t s = (processEvents none s.events).1 ++
      [WatchAction.closeResponse, WatchAction.releaseConn,
        WatchAction.watchCall (watchParams t)] := by
    unfold handleResponse
    rw [htail]
    rfl
  refine ⟨htr, ?_, ?_⟩
  · rw [htr, List.filter_append, processEvents_filter_errorCallback]
    rfl
  · rw [htr, List.filter_append, processEvents_filter_watchCall]
    rfl

/-- Witness for C6: one `ADDED` event then an idle timeout: the trace is
the item callback, close, release, and one identical re-watch call. -/
theorem idle_timeout_restarts_with_same_params_witness :
    handleResponse 30 timeoutStream = (processEvents none timeoutStream.events).1 ++
        [WatchAction.closeResponse, WatchAction.releaseConn,
          WatchAction.watchCall (watchParams 30)] ∧
      (handleResponse 30 timeoutStream).filter isErrorCallback = [] ∧
      (handleResponse 30 timeoutStream).filter isWatchCall =
        [WatchAction.watchCall (watchParams 30)] :=
  idle_timeout_restarts_with_same_params 30 timeoutStream rfl rfl

/-- C7 as stated is false: on a fatal (non-timeout) stream error the
watcher does invoke the error callback and close the session, but it does
NOT leave the restart to the controller — the trace of the fatal path
contains a new watch call issued by the watcher itself. -/
theorem watch_restarts_on_fatal_error_cex :
    WatchAction.watchCall (watchParams 30) ∈ handleResponse 30 fatalStream ∧
      (handleResponse 30 fatalStream).filter isErrorCallback =
        [WatchAction.errorCallback PyError.attributeError] := by
  constructor
  · decide
  · rfl

/-- C7 amended: on a stream error other than an idle timeout the watcher
invokes the error callback with that error, closes and releases the
session, and then itself issues one new watch call with the same
parameters (restart is not left to the controller). -/
theorem fatal_error_invokes_callback_and_restarts (t : Nat) (s : WatchStream)
    (e : PyError)
    (hloop : (processEvents none s.events).2 = none)
    (hend : s.ending = some e)
    (hne : e ≠ PyError.readTimeoutError) :
    handleResponse t s = (processEvents none s.events).1 ++
      [WatchAction.errorCallback e, WatchAction.closeResponse,
        WatchAction.releaseConn, WatchAction.watchCall (watchParams t)] := by
  have htail : responseTail s = [WatchAction.errorCallback e] := by
    unfold responseTail
    rw [hloop, hend]
    cases e with
    | attributeError => rfl
    | nameError => rfl
    | readTimeoutError => exact absurd rfl hne
    | rejectionExc s' => rfl
  unfold handleResponse
  rw [htail]
  rfl

/-- Witness for C7's amended statement: an `AttributeError` ending the
stream produces error callback, close, release, then one re-watch call. -/
theorem fatal_error_invokes_callback_and_restarts_witness :
    handleResponse 30 fatalStream = (processEvents none fatalStream.events).1 ++
      [WatchAction.errorCallback PyError.attributeError, WatchAction.closeResponse,
        WatchAction.releaseConn, WatchAction.watchCall (watchParams 30)] :=
  fatal_error_invokes_callback_and_restarts 30 fatalStream
    PyError.attributeError rfl rfl (by decide)

/-- C8: on every termination of a watch-stream handler — normal end of
stream, idle timeout, or any raised exception — the response is closed and
its connection released before the handler returns or any new watch call
is issued: the trace of `handle_response` is callbacks only, then close,
release, and the single re-watch call last; the trace of the async
handler's `handle_response` is callbacks only, then close and release,
with any exception propagated only afterwards. -/
theorem session_always_closed_before_restart (t : Nat) (s : WatchStream) :
    (∃ front, handleResponse t s = front ++
          [WatchAction.closeResponse, WatchAction.releaseConn,
            WatchAction.watchCall (watchParams t)] ∧
        ∀ a ∈ front, (∃ it, a = WatchAction.itemCallback it) ∨
          ∃ e, a = WatchAction.errorCallback e) ∧
      (asyncHandleResponse s).1 = asyncProcessEvents s.events ++
          [WatchAction.closeResponse, WatchAction.releaseConn] ∧
      (asyncHandleResponse s).2 = s.ending ∧
      ∀ a ∈ asyncProcessEvents s.events, ∃ it, a = WatchAction.itemCallback it := by
  refine ⟨⟨(processEvents none s.events).1 ++ responseTail s, ?_, ?_⟩, rfl, rfl,
    asyncProcessEvents_mem_itemCallback s.events⟩
  · unfold handleResponse
    rw [List.append_assoc]
  · intro a ha
    rcases List.mem_append.mp ha with h | h
    · exact Or.inl (processEvents_mem_itemCallback none s.events a h)
    · exact Or.inr (responseTail_mem_errorCallback s a h)

